import Mathlib

/-!
Verification of `internal/controller/standalone_pgadmin/pod.go`.

The core of the file is the supervisor shell routine built by `startupScript`:

```
PGADMIN_DIR=/usr/local/lib/python3.11/site-packages/pgadmin4
echo "Running pgAdmin4 Setup"
python3 $PGADMIN_DIR/setup.py
echo "Starting pgAdmin4"
PGADMIN4_PIDFILE=/tmp/pgadmin4.pid
pgadmin4 &
echo $! > $PGADMIN4_PIDFILE
python3 $PGADMIN_DIR/setup.py --load-servers <cluster_file> --user <identity> --replace

exec {fd}<> <(:)
while read -r -t 5 -u "$fd" || true; do
  if [ "$cluster_file" -nt "/proc/self/fd/$fd" ] && <loadServerCommand>
  then
    exec {fd}>&- && exec {fd}<> <(:)
    stat --format=... "$cluster_file"
  fi
  if [ ! -d /proc/$(cat $PGADMIN4_PIDFILE) ]
  then
    pgadmin4 &
    echo $! > $PGADMIN4_PIDFILE
    echo "Restarting pgAdmin4"
  fi
done
```

We embed one iteration of the `while` loop as `monitorTick`, the whole
loop as `monitorRun` (a fold over the sequence of environments observed
at each tick), and the pre-loop startup sequence as `monitorStartup`.
Timestamps are naturals. The "watermark" is the modification time of the
pipe behind `/proc/self/fd/$fd`, i.e. the time at which the descriptor
was last opened with `exec {fd}<> <(:)`.

`podConfigFiles` is embedded directly over a model of the Kubernetes
volume-projection types it manipulates.
-/

namespace PGAdminPod

/-! ## Supervisor loop: data model -/

/-- The mutable state of the `monitor` shell routine: the modification
time of the pipe behind `/proc/self/fd/$fd` (set whenever the descriptor
is opened by `exec {fd}<> <(:)`), and the pid stored in
`$PGADMIN4_PIDFILE` (written by `echo $! > $PGADMIN4_PIDFILE`). -/
structure MonitorState where
  /-- mtime of the pipe behind the watch descriptor: the watermark. -/
  fdTime : Nat
  /-- content of `$PGADMIN4_PIDFILE`. -/
  pidfile : Nat
  deriving Repr, DecidableEq

/-- What the outside world looks like during one iteration of the
`while` loop: the mtime of `$cluster_file` when `[ -nt ]` runs (`none`
when the file does not exist), the exit status the `loadServerCommand`
would return if invoked, the clock time at which `exec {fd}<> <(:)`
would recreate the pipe, the set of live pids under `/proc`, and the pid
the OS would assign to a freshly started `pgadmin4`. -/
structure TickEnv where
  clusterMtime : Option Nat
  reloadExit : Nat
  reopenTime : Nat
  procTable : List Nat
  newPid : Nat
  deriving Repr, DecidableEq

/-- Observable actions of one loop iteration, in order. -/
inductive Event where
  /-- `python3 $PGADMIN_DIR/setup.py` (initial setup, startup only). -/
  | setup : Event
  /-- `pgadmin4 &` followed by `echo $! > $PGADMIN4_PIDFILE`. -/
  | startProcess : Nat → Event
  /-- invocation of `python3 $PGADMIN_DIR/setup.py --load-servers ... --replace`. -/
  | invokeReload : Event
  /-- `stat --format='Loaded shared servers dated %y' "$cluster_file"`. -/
  | loadedMessage : Event
  /-- `echo "Restarting pgAdmin4"`. -/
  | restartMessage : Event
  deriving Repr, DecidableEq

/-- Bash `[ file1 -nt file2 ]` where `file2` is `/proc/self/fd/$fd` and
therefore always exists while the descriptor is open: true iff `file1`
exists and its mtime is strictly greater than `file2`'s. A missing
`file1` gives false. -/
def ntTest (file : Option Nat) (ref : Nat) : Bool :=
  match file with
  | none => false
  | some m => ref < m

/-- One iteration of the `while read -r -t 5` loop.

First `if`: `[ "$cluster_file" -nt "/proc/self/fd/$fd" ] && loadServerCommand`.
The reload command runs only when the `-nt` test passes; the body
(`exec {fd}>&- && exec {fd}<> <(:)` then the `stat` message) runs only
when the reload also exits 0, so the descriptor is reopened — the
watermark becomes `reopenTime` — only on a successful reload.

Second `if`: `[ ! -d /proc/$(cat $PGADMIN4_PIDFILE) ]`. When the
recorded pid is absent from the process table, `pgadmin4 &` is started,
its pid overwrites the pidfile, and the restart message is printed.
Both tests sit in `if` conditions, so `set -e` never fires here. -/
def monitorTick (env : TickEnv) (s : MonitorState) : MonitorState × List Event :=
  let (s1, evs1) :=
    if ntTest env.clusterMtime s.fdTime then
      if env.reloadExit = 0 then
        ({ s with fdTime := env.reopenTime }, [Event.invokeReload, Event.loadedMessage])
      else
        (s, [Event.invokeReload])
    else (s, ([] : List Event))
  let (s2, evs2) :=
    if s1.pidfile ∈ env.procTable then (s1, ([] : List Event))
    else ({ s1 with pidfile := env.newPid },
          [Event.startProcess env.newPid, Event.restartMessage])
  (s2, evs1 ++ evs2)

/-- Running the loop over a finite prefix of ticks, accumulating the
emitted events. -/
def monitorRun : List TickEnv → MonitorState → MonitorState × List Event
  | [], s => (s, [])
  | env :: rest, s =>
    ((monitorRun rest (monitorTick env s).1).1,
     (monitorTick env s).2 ++ (monitorRun rest (monitorTick env s).1).2)

/-- The startup sequence that precedes the loop, under `bash -ceu`
(errexit): run `python3 $PGADMIN_DIR/setup.py`; if it fails the shell
exits. Then `pgadmin4 &`, record its pid, and run the
`loadServerCommand` unconditionally; if that fails the shell exits (its
failure is a plain command under `set -e`). On success the loop's
descriptor is opened at `fdOpenTime` and the loop starts. The artifact's
modification time is not consulted anywhere in this sequence. Returns
the initial loop state (`none` when the shell exited) and the events. -/
def monitorStartup (setupExit : Nat) (initialPid : Nat) (reloadExit : Nat)
    (fdOpenTime : Nat) : Option MonitorState × List Event :=
  if setupExit ≠ 0 then
    (none, [Event.setup])
  else if reloadExit ≠ 0 then
    (none, [Event.setup, Event.startProcess initialPid, Event.invokeReload])
  else
    (some ⟨fdOpenTime, initialPid⟩,
     [Event.setup, Event.startProcess initialPid, Event.invokeReload])

/-- The pid recorded by the most recent `startProcess` event of a trace,
or `init` when the trace starts none. -/
def lastStarted (init : Nat) : List Event → Nat
  | [] => init
  | Event.startProcess p :: rest => lastStarted p rest
  | _ :: rest => lastStarted init rest

/-- Number of reload invocations in a trace. -/
def countReloads (evs : List Event) : Nat :=
  evs.countP (fun e => e = Event.invokeReload)

/-! ## `podConfigFiles`: data model -/

/-- `corev1.KeyToPath`. -/
structure KeyToPath where
  key : String
  path : String
  deriving Repr, DecidableEq

/-- The parts of `corev1.ConfigMapProjection` used here: the local
object reference's name and the items. -/
structure ConfigMapProjection where
  name : String
  items : List KeyToPath
  deriving Repr, DecidableEq

/-- The parts of `corev1.SecretProjection` used here. -/
structure SecretProjection where
  name : String
  optional : Option Bool
  items : List KeyToPath
  deriving Repr, DecidableEq

/-- `corev1.VolumeProjection`: at most one of its source fields is set
by this code. -/
structure VolumeProjection where
  configMap : Option ConfigMapProjection := none
  secret : Option SecretProjection := none
  deriving Repr, DecidableEq

/-- `corev1.SecretKeySelector`: local object reference name, key, and
the optional flag. -/
structure SecretKeySelector where
  name : String
  key : String
  optional : Option Bool
  deriving Repr, DecidableEq

/-- The parts of `corev1.ConfigMap` used here. -/
structure ConfigMap where
  name : String
  deriving Repr, DecidableEq

/-- `pgadmin.Spec.Config`: user-supplied projections and the optional
LDAP bind password secret reference. -/
structure PGAdminConfig where
  files : List VolumeProjection
  ldapBindPassword : Option SecretKeySelector
  deriving Repr, DecidableEq

/-- `pgadmin.Spec`. -/
structure PGAdminSpec where
  config : PGAdminConfig
  deriving Repr, DecidableEq

/-- The parts of `v1beta1.PGAdmin` used here: object name, object
namespace, spec. -/
structure PGAdmin where
  name : String
  nspace : String
  spec : PGAdminSpec
  deriving Repr, DecidableEq

/-- Modelled from the spec: `settingsConfigMapKey` is a package
constant defined outside the given source file; its exact value does
not affect any claim. -/
def settingsConfigMapKey : String := "pgadmin-settings.json"

/-- Modelled from the spec: `settingsClusterMapKey` is a package
constant defined outside the given source file; its exact value does
not affect any claim. -/
def settingsClusterMapKey : String := "pgadmin-shared-clusters.json"

def configMountPath : String := "/etc/pgadmin/conf.d"

def configFilePath : String := "~postgres-operator/" ++ settingsConfigMapKey

def clusterFilePath : String := "~postgres-operator/" ++ settingsClusterMapKey

def ldapFilePath : String := "~postgres-operator/ldap-bind-password"

/-- `podConfigFiles` from pod.go: the user's `Spec.Config.Files`
followed by the operator ConfigMap projection, with the LDAP secret
projection appended when `Spec.Config.LDAPBindPassword` is set. -/
def podConfigFiles (configmap : ConfigMap) (pgadmin : PGAdmin) : List VolumeProjection :=
  let config :=
    pgadmin.spec.config.files ++
      [{ configMap := some
          { name := configmap.name
            items :=
              [ { key := settingsConfigMapKey, path := configFilePath },
                { key := settingsClusterMapKey, path := clusterFilePath } ] } }]
  match pgadmin.spec.config.ldapBindPassword with
  | some ldap =>
    config ++
      [{ secret := some
          { name := ldap.name
            optional := ldap.optional
            items := [ { key := ldap.key, path := ldapFilePath } ] } }]
  | none => config

/-- The identity passed to `--user` in `loadServerCommand`:
`admin@<name>.<namespace>.svc`. -/
def adminIdentity (pgadmin : PGAdmin) : String :=
  "admin@" ++ pgadmin.name ++ "." ++ pgadmin.nspace ++ ".svc"

/-- The reload command string assembled by `startupScript`. -/
def loadServerCommand (pgadmin : PGAdmin) : String :=
  "python3 ${PGADMIN_DIR}/setup.py --load-servers " ++
    configMountPath ++ "/" ++ clusterFilePath ++
    " --user " ++ adminIdentity pgadmin ++ " --replace"

/-! ## Helper lemmas -/

theorem ntTest_eq_true_iff (m : Option Nat) (w : Nat) :
    ntTest m w = true ↔ ∃ t, m = some t ∧ w < t := by
  cases m <;> simp [ntTest]

/-- The watermark after one tick: it becomes `reopenTime` exactly when
the `-nt` test passed and the reload exited 0; otherwise it is kept. -/
theorem fdTime_tick (env : TickEnv) (s : MonitorState) :
    (monitorTick env s).1.fdTime =
      if ntTest env.clusterMtime s.fdTime ∧ env.reloadExit = 0 then env.reopenTime
      else s.fdTime := by
  unfold monitorTick
  by_cases h1 : ntTest env.clusterMtime s.fdTime <;>
    by_cases h2 : env.reloadExit = 0 <;>
      by_cases h3 : s.pidfile ∈ env.procTable <;>
        simp [h1, h2, h3]

/-- The pidfile after one tick: overwritten with `newPid` exactly when
the recorded pid was absent from the process table. -/
theorem pidfile_tick (env : TickEnv) (s : MonitorState) :
    (monitorTick env s).1.pidfile =
      if s.pidfile ∈ env.procTable then s.pidfile else env.newPid := by
  unfold monitorTick
  by_cases h1 : ntTest env.clusterMtime s.fdTime <;>
    by_cases h2 : env.reloadExit = 0 <;>
      by_cases h3 : s.pidfile ∈ env.procTable <;>
        simp [h1, h2, h3]

/-- The events of one tick: the reload part followed by the liveness
part. -/
theorem events_tick (env : TickEnv) (s : MonitorState) :
    (monitorTick env s).2 =
      (if ntTest env.clusterMtime s.fdTime then
        if env.reloadExit = 0 then [Event.invokeReload, Event.loadedMessage]
        else [Event.invokeReload]
       else []) ++
      (if s.pidfile ∈ env.procTable then []
       else [Event.startProcess env.newPid, Event.restartMessage]) := by
  unfold monitorTick
  by_cases h1 : ntTest env.clusterMtime s.fdTime <;>
    by_cases h2 : env.reloadExit = 0 <;>
      by_cases h3 : s.pidfile ∈ env.procTable <;>
        simp [h1, h2, h3]

/-- A tick invokes the reload command iff the `-nt` test passes. -/
theorem reload_mem_tick (env : TickEnv) (s : MonitorState) :
    Event.invokeReload ∈ (monitorTick env s).2 ↔
      ntTest env.clusterMtime s.fdTime = true := by
  rw [events_tick]
  by_cases h1 : ntTest env.clusterMtime s.fdTime <;>
    by_cases h2 : env.reloadExit = 0 <;>
      by_cases h3 : s.pidfile ∈ env.procTable <;>
        simp [h1, h2, h3]

/-! ## Claim theorems -/

/-- C3: the change predicate of a tick holds iff the artifact's
modification time is strictly greater than the current watermark — the
reload is invoked at a tick exactly when the artifact exists and its
mtime exceeds `fdTime`; on an equal or older mtime (or a missing
artifact) no reload is invoked. -/
theorem reload_invoked_iff_strictly_newer (env : TickEnv) (s : MonitorState) :
    Event.invokeReload ∈ (monitorTick env s).2 ↔
      ∃ m, env.clusterMtime = some m ∧ s.fdTime < m := by
  rw [← ntTest_eq_true_iff]
  unfold monitorTick
  by_cases h : ntTest env.clusterMtime s.fdTime
  · by_cases h2 : env.reloadExit = 0 <;>
      by_cases h3 : s.pidfile ∈ env.procTable <;> simp [h, h2, h3]
  · by_cases h3 : s.pidfile ∈ env.procTable <;> simp [h, h3]

/-- C6: at a tick where the watched artifact does not exist, the poll
result is "no change": no reload is invoked and the watermark is
untouched, and the tick still proceeds to the liveness check — a dead
process is restarted and recorded in that same tick. -/
theorem missing_artifact_no_change (env : TickEnv) (s : MonitorState)
    (h : env.clusterMtime = none) :
    (monitorTick env s).1.fdTime = s.fdTime ∧
    Event.invokeReload ∉ (monitorTick env s).2 ∧
    (s.pidfile ∉ env.procTable →
      (monitorTick env s).1.pidfile = env.newPid ∧
      Event.startProcess env.newPid ∈ (monitorTick env s).2) ∧
    (s.pidfile ∈ env.procTable → (monitorTick env s).1 = s) := by
  unfold monitorTick
  by_cases h3 : s.pidfile ∈ env.procTable <;> simp [ntTest, h, h3]

/-- C6 witness: a concrete tick with the artifact missing and the
process dead. -/
theorem missing_artifact_no_change_witness :
    (monitorTick ⟨none, 0, 9, [7], 8⟩ ⟨3, 4⟩).1.fdTime = 3 ∧
    Event.invokeReload ∉ (monitorTick ⟨none, 0, 9, [7], 8⟩ ⟨3, 4⟩).2 ∧
    (monitorTick ⟨none, 0, 9, [7], 8⟩ ⟨3, 4⟩).1.pidfile = 8 ∧
    Event.startProcess 8 ∈ (monitorTick ⟨none, 0, 9, [7], 8⟩ ⟨3, 4⟩).2 := by
  have h := missing_artifact_no_change ⟨none, 0, 9, [7], 8⟩ ⟨3, 4⟩ rfl
  refine ⟨h.1, h.2.1, ?_, ?_⟩
  · exact (h.2.2.1 (by decide)).1
  · exact (h.2.2.1 (by decide)).2

/-- C10: `podConfigFiles` lists the user's `Spec.Config.Files` first,
then the operator's ConfigMap projection; when `LDAPBindPassword` is
set, the LDAP secret projection is the final element (so its file wins
over any ConfigMap-provided value) and the list has two more elements
than `Files`; when it is nil the list has exactly one more element. -/
theorem podConfigFiles_layout (cm : ConfigMap) (p : PGAdmin) :
    (podConfigFiles cm p).take p.spec.config.files.length = p.spec.config.files ∧
    (podConfigFiles cm p)[p.spec.config.files.length]? =
      some { configMap := some
              { name := cm.name
                items :=
                  [ { key := settingsConfigMapKey, path := configFilePath },
                    { key := settingsClusterMapKey, path := clusterFilePath } ] } } ∧
    (∀ ldap, p.spec.config.ldapBindPassword = some ldap →
      (podConfigFiles cm p).getLast? =
        some { secret := some
                { name := ldap.name
                  optional := ldap.optional
                  items := [ { key := ldap.key, path := ldapFilePath } ] } } ∧
      (podConfigFiles cm p).length = p.spec.config.files.length + 2) ∧
    (p.spec.config.ldapBindPassword = none →
      (podConfigFiles cm p).length = p.spec.config.files.length + 1) := by
  unfold podConfigFiles
  cases hl : p.spec.config.ldapBindPassword with
  | none =>
    dsimp only
    refine ⟨?_, ?_, by simp [hl], by simp⟩
    · simp [List.take_left p.spec.config.files]
    · simp [List.getElem?_append_right]
  | some ldap =>
    dsimp only
    refine ⟨?_, ?_, ?_, by simp [hl]⟩
    · rw [List.append_assoc]
      simp [List.take_left p.spec.config.files]
    · rw [List.append_assoc, List.getElem?_append_right (Nat.le_refl _)]
      simp
    · intro l hsome
      cases hsome
      exact ⟨by simp [List.getLast?_concat], by simp⟩

/-- C1 counterexample: at watermark 0, artifact mtime 5, reload exit
status 1 (process 4 alive): the change is detected and the reload is
invoked, yet the watermark does NOT advance (the descriptor is not
reopened, since the reload sits in the same `&&` chain as the `-nt`
test), and a second tick on the unchanged artifact re-invokes the
reload — contradicting both "the watermark has still advanced" and "a
failed reload does not re-trigger on an unchanged artifact". -/
theorem failed_reload_advances_watermark_cex :
    Event.invokeReload ∈ (monitorTick ⟨some 5, 1, 10, [4], 9⟩ ⟨0, 4⟩).2 ∧
    (monitorTick ⟨some 5, 1, 10, [4], 9⟩ ⟨0, 4⟩).1.fdTime = 0 ∧
    Event.invokeReload ∈
      (monitorTick ⟨some 5, 1, 10, [4], 9⟩
        (monitorTick ⟨some 5, 1, 10, [4], 9⟩ ⟨0, 4⟩).1).2 := by decide

/-- C1 amended: when a change is detected and the reload command exits
non-zero, the reload is invoked but the watermark is NOT advanced; the
same tick still proceeds to the liveness check (a dead process is
restarted in that very tick), and the reload DOES re-trigger on the
unchanged artifact at every subsequent tick. -/
theorem failed_reload_keeps_watermark (env : TickEnv) (s : MonitorState)
    (hchg : ntTest env.clusterMtime s.fdTime = true)
    (hfail : env.reloadExit ≠ 0) :
    Event.invokeReload ∈ (monitorTick env s).2 ∧
    (monitorTick env s).1.fdTime = s.fdTime ∧
    (s.pidfile ∉ env.procTable →
      (monitorTick env s).1.pidfile = env.newPid ∧
      Event.startProcess env.newPid ∈ (monitorTick env s).2) ∧
    (∀ env2 : TickEnv, env2.clusterMtime = env.clusterMtime →
      Event.invokeReload ∈ (monitorTick env2 (monitorTick env s).1).2) := by
  have hfd : (monitorTick env s).1.fdTime = s.fdTime := by
    rw [fdTime_tick]; simp [hfail]
  refine ⟨(reload_mem_tick env s).mpr hchg, hfd, ?_, ?_⟩
  · intro hdead
    refine ⟨by rw [pidfile_tick]; simp [hdead], ?_⟩
    rw [events_tick]
    simp [hdead]
  · intro env2 hsame
    rw [reload_mem_tick, hfd, hsame]
    exact hchg

/-- C1 amended, witness: concrete failing tick with a dead process. -/
theorem failed_reload_keeps_watermark_witness :
    Event.invokeReload ∈ (monitorTick ⟨some 5, 1, 10, [7], 9⟩ ⟨0, 4⟩).2 ∧
    (monitorTick ⟨some 5, 1, 10, [7], 9⟩ ⟨0, 4⟩).1.fdTime = 0 ∧
    (monitorTick ⟨some 5, 1, 10, [7], 9⟩ ⟨0, 4⟩).1.pidfile = 9 ∧
    Event.startProcess 9 ∈ (monitorTick ⟨some 5, 1, 10, [7], 9⟩ ⟨0, 4⟩).2 ∧
    Event.invokeReload ∈
      (monitorTick ⟨some 5, 1, 11, [9], 9⟩
        (monitorTick ⟨some 5, 1, 10, [7], 9⟩ ⟨0, 4⟩).1).2 := by
  have h := failed_reload_keeps_watermark ⟨some 5, 1, 10, [7], 9⟩ ⟨0, 4⟩
    (by decide) (by decide)
  have hd := h.2.2.1 (by decide)
  exact ⟨h.1, h.2.1, hd.1, hd.2, h.2.2.2 ⟨some 5, 1, 11, [9], 9⟩ rfl⟩

/-- C2 counterexample: watermark 0, artifact mtime 5, reload succeeds,
descriptor reopened at clock time 10: the watermark after the tick is
10 — the time the reload completed and the descriptor was recreated —
and not the observed modification time 5. -/
theorem watermark_equals_mtime_cex :
    Event.invokeReload ∈ (monitorTick ⟨some 5, 0, 10, [4], 9⟩ ⟨0, 4⟩).2 ∧
    (monitorTick ⟨some 5, 0, 10, [4], 9⟩ ⟨0, 4⟩).1.fdTime = 10 ∧
    (monitorTick ⟨some 5, 0, 10, [4], 9⟩ ⟨0, 4⟩).1.fdTime ≠ 5 := by decide

/-- C2 amended: when a change is detected and the reload succeeds, the
watermark becomes the clock time at which `exec {fd}<> <(:)` recreates
the pipe — the time the reload completed — not the artifact's observed
modification time; on a failed reload it is unchanged. -/
theorem watermark_becomes_reopen_time (env : TickEnv) (s : MonitorState)
    (hchg : ntTest env.clusterMtime s.fdTime = true) :
    (env.reloadExit = 0 →
      (monitorTick env s).1.fdTime = env.reopenTime ∧
      Event.loadedMessage ∈ (monitorTick env s).2) ∧
    (env.reloadExit ≠ 0 → (monitorTick env s).1.fdTime = s.fdTime) := by
  constructor
  · intro hok
    refine ⟨by rw [fdTime_tick]; simp [hchg, hok], ?_⟩
    rw [events_tick]
    by_cases h3 : s.pidfile ∈ env.procTable <;> simp [hchg, hok, h3]
  · intro hfail
    rw [fdTime_tick]; simp [hfail]

/-- C2 amended, witness: successful reload at the concrete input of the
counterexample's shape. -/
theorem watermark_becomes_reopen_time_witness :
    (monitorTick ⟨some 5, 0, 10, [4], 9⟩ ⟨0, 4⟩).1.fdTime = 10 ∧
    Event.loadedMessage ∈ (monitorTick ⟨some 5, 0, 10, [4], 9⟩ ⟨0, 4⟩).2 := by
  exact (watermark_becomes_reopen_time ⟨some 5, 0, 10, [4], 9⟩ ⟨0, 4⟩
    (by decide)).1 (by decide)

/-- C4 counterexample: tick 1 sees mtime 5 (watermark 0), reloads
successfully and reopens the descriptor at clock time 10. A late write
lands with mtime 7 — strictly newer than the last observed mtime 5 —
yet tick 2 does not detect it (7 is older than the new watermark 10):
the update is missed, because the comparison is against the descriptor's
reopen time, not against the last observed modification time. -/
theorem late_write_never_missed_cex :
    Event.invokeReload ∈ (monitorTick ⟨some 5, 0, 10, [1], 2⟩ ⟨0, 1⟩).2 ∧
    (5 : Nat) < 7 ∧
    Event.invokeReload ∉
      (monitorTick ⟨some 7, 0, 20, [1], 2⟩
        (monitorTick ⟨some 5, 0, 10, [1], 2⟩ ⟨0, 1⟩).1).2 := by decide

/-- C4 amended: after a tick that detects a change and reloads
successfully, the next tick detects a change iff the artifact's mtime
then exceeds the first tick's descriptor-reopen time (the clock time
when that reload completed) — not the previously observed modification
time. A write whose mtime is at or before the reopen time (e.g. one
landing while the reload ran) is therefore missed. -/
theorem next_tick_detects_iff_newer_than_reopen (env1 env2 : TickEnv)
    (s : MonitorState)
    (hchg : ntTest env1.clusterMtime s.fdTime = true)
    (hok : env1.reloadExit = 0) :
    Event.invokeReload ∈ (monitorTick env2 (monitorTick env1 s).1).2 ↔
      ∃ t, env2.clusterMtime = some t ∧ env1.reopenTime < t := by
  have hfd : (monitorTick env1 s).1.fdTime = env1.reopenTime := by
    rw [fdTime_tick]; simp [hchg, hok]
  rw [reload_mem_tick, hfd, ntTest_eq_true_iff]

/-- C4 amended, witness: a second-tick mtime 15 above the reopen time
10 is detected. -/
theorem next_tick_detects_iff_newer_than_reopen_witness :
    Event.invokeReload ∈
      (monitorTick ⟨some 15, 0, 20, [1], 2⟩
        (monitorTick ⟨some 5, 0, 10, [1], 2⟩ ⟨0, 1⟩).1).2 := by
  exact (next_tick_detects_iff_newer_than_reopen ⟨some 5, 0, 10, [1], 2⟩
    ⟨some 15, 0, 20, [1], 2⟩ ⟨0, 1⟩ (by decide) (by decide)).mpr
    ⟨15, rfl, by decide⟩

/-! ## Liveness / restart lemmas -/

theorem lastStarted_append (init : Nat) (l1 l2 : List Event) :
    lastStarted init (l1 ++ l2) = lastStarted (lastStarted init l1) l2 := by
  induction l1 generalizing init with
  | nil => rfl
  | cons e rest ih => cases e <;> simp [lastStarted, ih]

/-- The pidfile after a tick is exactly what the tick's trace says was
started last (or the incoming pidfile when nothing was started). -/
theorem lastStarted_tick (env : TickEnv) (s : MonitorState) :
    lastStarted s.pidfile (monitorTick env s).2 = (monitorTick env s).1.pidfile := by
  rw [events_tick, pidfile_tick, lastStarted_append]
  by_cases h1 : ntTest env.clusterMtime s.fdTime <;>
    by_cases h2 : env.reloadExit = 0 <;>
      by_cases h3 : s.pidfile ∈ env.procTable <;>
        simp [h1, h2, h3, lastStarted]

theorem pidfile_run (envs : List TickEnv) (s : MonitorState) :
    (monitorRun envs s).1.pidfile = lastStarted s.pidfile (monitorRun envs s).2 := by
  induction envs generalizing s with
  | nil => rfl
  | cons env rest ih =>
    simp only [monitorRun]
    rw [lastStarted_append, lastStarted_tick]
    exact ih (monitorTick env s).1

/-- A tick at which nothing changed and the process is alive does
nothing at all. -/
theorem monitorTick_quiescent (env : TickEnv) (s : MonitorState)
    (h1 : ntTest env.clusterMtime s.fdTime = false)
    (h2 : s.pidfile ∈ env.procTable) :
    monitorTick env s = (s, []) := by
  unfold monitorTick
  simp [h1, h2]

theorem countReloads_tick (env : TickEnv) (s : MonitorState) :
    countReloads (monitorTick env s).2 =
      if ntTest env.clusterMtime s.fdTime then 1 else 0 := by
  rw [events_tick]
  by_cases h1 : ntTest env.clusterMtime s.fdTime <;>
    by_cases h2 : env.reloadExit = 0 <;>
      by_cases h3 : s.pidfile ∈ env.procTable <;>
        simp [h1, h2, h3, countReloads]

/-- The success message is printed at a tick iff the change test passed
and the reload exited 0. -/
theorem loadedMessage_tick (env : TickEnv) (s : MonitorState) :
    Event.loadedMessage ∈ (monitorTick env s).2 ↔
      (ntTest env.clusterMtime s.fdTime = true ∧ env.reloadExit = 0) := by
  rw [events_tick]
  by_cases h1 : ntTest env.clusterMtime s.fdTime <;>
    by_cases h2 : env.reloadExit = 0 <;>
      by_cases h3 : s.pidfile ∈ env.procTable <;>
        simp [h1, h2, h3]

/-- Over a run in which every tick sees the unchanged artifact at mtime
`m` above the incoming watermark and a failing reload: the watermark
never moves, every tick invokes the reload, and the success message is
never printed. -/
theorem monitorRun_fail (m : Nat) (envs : List TickEnv) (s : MonitorState)
    (hm : s.fdTime < m)
    (hall : ∀ env ∈ envs, env.clusterMtime = some m ∧ env.reloadExit ≠ 0) :
    (monitorRun envs s).1.fdTime = s.fdTime ∧
    countReloads (monitorRun envs s).2 = envs.length ∧
    Event.loadedMessage ∉ (monitorRun envs s).2 := by
  induction envs generalizing s with
  | nil => simp [monitorRun, countReloads]
  | cons env rest ih =>
    have he := hall env (List.mem_cons_self env rest)
    have hnt : ntTest env.clusterMtime s.fdTime = true := by
      rw [he.1]; simpa [ntTest] using hm
    have hfd : (monitorTick env s).1.fdTime = s.fdTime := by
      rw [fdTime_tick]; simp [he.2]
    have hrest := ih (monitorTick env s).1 (by rw [hfd]; exact hm)
      (fun e hm2 => hall e (List.mem_cons_of_mem env hm2))
    refine ⟨by simp only [monitorRun]; rw [hrest.1, hfd], ?_, ?_⟩
    · simp only [monitorRun, countReloads, List.countP_append]
      have h1 : countReloads (monitorTick env s).2 = 1 := by
        rw [countReloads_tick]; simp [hnt]
      simp only [countReloads] at h1 hrest
      rw [h1, hrest.2.1, Nat.add_comm, List.length_cons]
    · simp only [monitorRun, List.mem_append]
      push_neg
      refine ⟨?_, hrest.2.2⟩
      intro hmem
      exact he.2 ((loadedMessage_tick env s).mp hmem).2

/-! ## Remaining claim theorems -/

/-- C5: a tick that finds the recorded pid absent from the process
table starts a new process, overwrites the pidfile with the new pid and
prints the restart message; and over any run, the pidfile always holds
the pid of the most recently started instance (the initial pid when no
restart has occurred). -/
theorem pidfile_tracks_latest_start :
    (∀ (env : TickEnv) (s : MonitorState), s.pidfile ∉ env.procTable →
      (monitorTick env s).1.pidfile = env.newPid ∧
      Event.startProcess env.newPid ∈ (monitorTick env s).2 ∧
      Event.restartMessage ∈ (monitorTick env s).2) ∧
    (∀ (envs : List TickEnv) (s : MonitorState),
      (monitorRun envs s).1.pidfile = lastStarted s.pidfile (monitorRun envs s).2) := by
  refine ⟨?_, pidfile_run⟩
  intro env s hdead
  refine ⟨by rw [pidfile_tick]; simp [hdead], ?_, ?_⟩ <;>
    · rw [events_tick]
      simp [hdead]

/-- C5 witness: the spec's scenario — pid 4821 recorded, absent from
the process table, new pid 5102. -/
theorem pidfile_tracks_latest_start_witness :
    (monitorTick ⟨none, 0, 0, [], 5102⟩ ⟨0, 4821⟩).1.pidfile = 5102 ∧
    Event.startProcess 5102 ∈ (monitorTick ⟨none, 0, 0, [], 5102⟩ ⟨0, 4821⟩).2 ∧
    Event.restartMessage ∈ (monitorTick ⟨none, 0, 0, [], 5102⟩ ⟨0, 4821⟩).2 := by
  exact pidfile_tracks_latest_start.1 ⟨none, 0, 0, [], 5102⟩ ⟨0, 4821⟩ (by decide)

/-- C7: quiescent idempotence — over any number of consecutive ticks at
which the artifact's mtime has not advanced past the watermark and the
recorded process is alive, the run emits no events and leaves the state
exactly as it was: no reload, no restart, watermark and pidfile
untouched. -/
theorem quiescent_run_no_side_effects (envs : List TickEnv) (s : MonitorState)
    (h : ∀ env ∈ envs,
      ntTest env.clusterMtime s.fdTime = false ∧ s.pidfile ∈ env.procTable) :
    monitorRun envs s = (s, []) := by
  induction envs with
  | nil => rfl
  | cons env rest ih =>
    have he := h env (List.mem_cons_self env rest)
    have ht := monitorTick_quiescent env s he.1 he.2
    have hr := ih (fun e hm => h e (List.mem_cons_of_mem env hm))
    simp [monitorRun, ht, hr]

/-- C7 witness: two quiescent ticks (equal mtime, then missing
artifact; process alive throughout) leave state ⟨5, 4⟩ unchanged with
an empty trace. -/
theorem quiescent_run_no_side_effects_witness :
    monitorRun [⟨some 5, 0, 9, [4], 9⟩, ⟨none, 1, 11, [4, 7], 8⟩] ⟨5, 4⟩ =
      (⟨5, 4⟩, []) := by
  exact quiescent_run_no_side_effects
    [⟨some 5, 0, 9, [4], 9⟩, ⟨none, 1, 11, [4, 7], 8⟩] ⟨5, 4⟩ (by decide)

/-- C8: atomicity on reload failure — when the change test passes but
the reload exits non-zero, the watermark is left unchanged and the
success message is not printed, so every subsequent tick with the
artifact unchanged invokes the reload again (exactly once per tick),
until a tick whose invocation succeeds finally reopens the descriptor
and prints the message. -/
theorem reload_failure_atomic (m : Nat) (envs : List TickEnv)
    (s : MonitorState) (envS : TickEnv)
    (hm : s.fdTime < m)
    (hall : ∀ env ∈ envs, env.clusterMtime = some m ∧ env.reloadExit ≠ 0)
    (hS : envS.clusterMtime = some m) (hSok : envS.reloadExit = 0) :
    (monitorRun envs s).1.fdTime = s.fdTime ∧
    countReloads (monitorRun envs s).2 = envs.length ∧
    Event.loadedMessage ∉ (monitorRun envs s).2 ∧
    (monitorTick envS (monitorRun envs s).1).1.fdTime = envS.reopenTime ∧
    Event.loadedMessage ∈ (monitorTick envS (monitorRun envs s).1).2 := by
  have hrun := monitorRun_fail m envs s hm hall
  have hnt : ntTest envS.clusterMtime (monitorRun envs s).1.fdTime = true := by
    rw [hS, hrun.1]; simpa [ntTest] using hm
  refine ⟨hrun.1, hrun.2.1, hrun.2.2, ?_, ?_⟩
  · rw [fdTime_tick]; simp [hnt, hSok]
  · exact (loadedMessage_tick envS (monitorRun envs s).1).mpr ⟨hnt, hSok⟩

/-- C8 witness: two failing ticks on mtime 5 over watermark 0, then a
succeeding one that reopens the descriptor at time 30. -/
theorem reload_failure_atomic_witness :
    (monitorRun [⟨some 5, 1, 10, [4], 9⟩, ⟨some 5, 2, 20, [4], 9⟩] ⟨0, 4⟩).1.fdTime = 0 ∧
    countReloads
      (monitorRun [⟨some 5, 1, 10, [4], 9⟩, ⟨some 5, 2, 20, [4], 9⟩] ⟨0, 4⟩).2 = 2 ∧
    Event.loadedMessage ∉
      (monitorRun [⟨some 5, 1, 10, [4], 9⟩, ⟨some 5, 2, 20, [4], 9⟩] ⟨0, 4⟩).2 ∧
    (monitorTick ⟨some 5, 0, 30, [4], 9⟩
      (monitorRun [⟨some 5, 1, 10, [4], 9⟩, ⟨some 5, 2, 20, [4], 9⟩] ⟨0, 4⟩).1).1.fdTime = 30 ∧
    Event.loadedMessage ∈
      (monitorTick ⟨some 5, 0, 30, [4], 9⟩
        (monitorRun [⟨some 5, 1, 10, [4], 9⟩, ⟨some 5, 2, 20, [4], 9⟩] ⟨0, 4⟩).1).2 := by
  exact reload_failure_atomic 5 [⟨some 5, 1, 10, [4], 9⟩, ⟨some 5, 2, 20, [4], 9⟩]
    ⟨0, 4⟩ ⟨some 5, 0, 30, [4], 9⟩ (by decide) (by decide) rfl rfl

/-- C9: with the setup step succeeding, the startup sequence runs setup,
launches the managed process and recorded pid, then invokes the reload
command exactly once — unconditionally: `monitorStartup` does not
consult the artifact's modification time at all, and the invocation
happens whatever the reload's own exit status turns out to be. -/
theorem startup_invokes_reload_once (p r t : Nat) :
    (monitorStartup 0 p r t).2 =
      [Event.setup, Event.startProcess p, Event.invokeReload] ∧
    countReloads (monitorStartup 0 p r t).2 = 1 := by
  unfold monitorStartup
  by_cases h : r = 0 <;> simp [h, countReloads]

/-- C10 witness: one user file plus an LDAP bind password secret — the
user projection leads, the operator ConfigMap projection is next, the
LDAP secret projection is last, and the list has three elements. -/
theorem podConfigFiles_layout_witness :
    (podConfigFiles ⟨"ops-cm"⟩
        ⟨"pg", "ns",
          ⟨⟨[{ configMap := some { name := "user-cm", items := [{ key := "k", path := "p" }] } }],
            some ⟨"lds", "pw", some true⟩⟩⟩⟩).getLast? =
      some { secret := some
              { name := "lds"
                optional := some true
                items := [{ key := "pw", path := ldapFilePath }] } } ∧
    (podConfigFiles ⟨"ops-cm"⟩
        ⟨"pg", "ns",
          ⟨⟨[{ configMap := some { name := "user-cm", items := [{ key := "k", path := "p" }] } }],
            some ⟨"lds", "pw", some true⟩⟩⟩⟩).length = 3 := by
  have h := (podConfigFiles_layout ⟨"ops-cm"⟩
    ⟨"pg", "ns",
      ⟨⟨[{ configMap := some { name := "user-cm", items := [{ key := "k", path := "p" }] } }],
        some ⟨"lds", "pw", some true⟩⟩⟩⟩).2.2.1 ⟨"lds", "pw", some true⟩ rfl
  exact ⟨h.1, h.2⟩

end PGAdminPod
